import Mathlib

/-!
Verification model of the reactive signal runtime (`src/signals/signals_tc39.js`).

The embedding mirrors the source faithfully:
* JS values relevant to the claims are `JSVal` (`undefined`, `NaN`, numbers,
  booleans, strings); JS `+` on non-numbers yields `NaN`; `===` treats `NaN`
  as unequal to itself.
* Derivation bodies (the callbacks passed to `new Signal.Computed(...)` and
  `effect(...)`) are terms of a small expression language `Expr`, interpreted
  with fuel by `evalExpr`.
* The global `defaultSystem` plus all signal objects are one record `Sys`.
  Signal objects live in association lists keyed by numeric ids.
* JS `Set` membership is by object identity.  Subscriber-set entries are
  modelled by the inductive `Subr`: a computation record (`Subr.record`), a
  watcher callback closure (`Subr.wcb`), or a signal object itself
  (`Subr.sigObj`) — the latter is what `Computed.dispose` passes to
  `removeSubscriber` (`this`), and, matching JS identity, it never equals a
  computation record.
* Each run of `Computed._computeValue` and each run of an effect creates a
  fresh computation record (`{dependencies, signal?, invalidate}`); records
  get fresh ids from `nextRec`, matching JS object identity.  A `Computed`'s
  `_dependencies` set is aliased with its latest record's `dependencies`
  set; the model stores the set in the record and the computed holds the
  record id (`curRec`).  An effect's closure-captured `dependencies` set is
  shared by all of its run records, so it is stored on the effect itself.
* Invocations of user callbacks that the claims observe only through counts
  (watched/unwatched lifecycle callbacks, effect cleanup functions,
  derivation run counts) are instrumented as counters, exactly as the
  repository's own test suite observes them through `vi.fn()` spies.
-/

/-- JS values used by the model. -/
inductive JSVal where
  | undef
  | nan
  | num (n : Int)
  | bool (b : Bool)
  | str (s : String)
  deriving DecidableEq, Repr

/-- A thrown JS exception (identified by its message, as in the source). -/
inductive JSErr where
  | err (msg : String)
  deriving DecidableEq, Repr

deriving instance DecidableEq for Except

/-- JS `+` restricted to the model's values: numbers add, anything else is `NaN`. -/
def jsAdd : JSVal → JSVal → JSVal
  | JSVal.num a, JSVal.num b => JSVal.num (a + b)
  | _, _ => JSVal.nan

/-- JS `===`: `NaN` is not equal to itself; otherwise structural. -/
def jsStrictEq : JSVal → JSVal → Bool
  | JSVal.nan, _ => false
  | _, JSVal.nan => false
  | a, b => decide (a = b)

/-- JS truthiness for the model's values. -/
def truthy : JSVal → Bool
  | JSVal.undef => false
  | JSVal.nan => false
  | JSVal.num n => decide (n ≠ 0)
  | JSVal.bool b => b
  | JSVal.str s => decide (s ≠ "")

/-- Derivation bodies: the callbacks used by the scenarios in the claims. -/
inductive Expr where
  | lit (v : JSVal)
  | getSig (sid : Nat)
  | peekSig (sid : Nat)
  | add (a b : Expr)
  | seq (a b : Expr)
  | ite (c t e : Expr)
  | throwErr (msg : String)
  deriving DecidableEq, Repr

/-- Owner of a computation record: a `Computed` (its `signal` field) or an
effect (whose records carry a no-op `invalidate`). -/
inductive RecOwner where
  | comp (cid : Nat)
  | eff (eid : Nat)
  deriving DecidableEq, Repr

/-- A member of a `_subscribers` set, identified as JS Sets identify objects. -/
inductive Subr where
  /-- a computation record object (one per recomputation / effect run) -/
  | record (rid : Nat)
  /-- the watcher callback closure created by `Watcher.watch` for (effect, signal) -/
  | wcb (eid sid : Nat)
  /-- a signal object itself (what `Computed.dispose` passes as `subscriber`) -/
  | sigObj (sid : Nat)
  deriving DecidableEq, Repr

/-- An entry of `defaultSystem.updateQueue` (a JS Set of functions): the
`invalidate` closure of a computation record, or a watcher callback. -/
inductive QIt where
  | invalidate (rid : Nat)
  | wcb (eid sid : Nat)
  deriving DecidableEq, Repr

/-- A computation record `{dependencies, signal?, invalidate}`.  For records
owned by a `Computed`, `deps` holds the record's `dependencies` set (aliased
with the owner's `_dependencies` while the record is current).  For effect
records the shared set lives on the effect. -/
structure CompRec where
  owner : RecOwner
  deps : List Nat := []
  deriving DecidableEq, Repr

/-- A `Signal.State` object. -/
structure StateCell where
  value : JSVal
  subscribers : List Subr := []
  disposed : Bool := false
  hasWatched : Bool := false
  hasUnwatched : Bool := false
  watchedCount : Nat := 0
  unwatchedCount : Nat := 0
  deriving DecidableEq, Repr

/-- A `Signal.Computed` object.  `curRec` is the record whose `deps` set is
the object's current `_dependencies` (none before the first `_computeValue`,
and `dispose` sets `callback` to `none` for `this._callback = null`). -/
structure Computed where
  callback : Option Expr
  subscribers : List Subr := []
  curRec : Option Nat := none
  isStale : Bool := true
  cachedValue : JSVal := JSVal.undef
  isComputing : Bool := false
  disposed : Bool := false
  hasWatched : Bool := false
  hasUnwatched : Bool := false
  watchedCount : Nat := 0
  unwatchedCount : Nat := 0
  runCount : Nat := 0
  deriving DecidableEq, Repr

/-- An `effect(fn)` instance together with its internal `Watcher`. -/
structure Eff where
  body : Expr
  returnsCleanup : Bool
  hasCleanup : Bool := false
  cleanupCount : Nat := 0
  isActive : Bool := true
  deps : List Nat := []
  watchedSignals : List Nat := []
  pendingSignals : List Nat := []
  isNotifying : Bool := false
  runCount : Nat := 0
  deriving DecidableEq, Repr

/-- The whole system: `defaultSystem` plus every live object. -/
structure Sys where
  states : List (Nat × StateCell) := []
  comps : List (Nat × Computed) := []
  recs : List (Nat × CompRec) := []
  effs : List (Nat × Eff) := []
  nextRec : Nat := 0
  currentComputation : Option Nat := none
  computationStack : List Nat := []
  computationDepth : Nat := 0
  maxComputationDepth : Nat := 100
  updateQueue : List QIt := []
  isUpdating : Bool := false
  watcherQueue : List Nat := []
  isWatcherScheduled : Bool := false
  deriving DecidableEq, Repr

/-- Association-list lookup. -/
def lookupL {α : Type} (l : List (Nat × α)) (k : Nat) : Option α :=
  (l.find? (fun p => p.1 = k)).map (fun p => p.2)

/-- Association-list in-place update. -/
def updateL {α : Type} (l : List (Nat × α)) (k : Nat) (f : α → α) : List (Nat × α) :=
  l.map (fun p => if p.1 = k then (k, f p.2) else p)

/-- JS `Set.add`: append if not already a member (identity-based). -/
def setAdd {α : Type} [DecidableEq α] (l : List α) (x : α) : List α :=
  if x ∈ l then l else l ++ [x]

/-- JS `Set.delete`. -/
def setDel {α : Type} [DecidableEq α] (l : List α) (x : α) : List α :=
  l.filter (fun y => y ≠ x)

def getState (st : Sys) (sid : Nat) : Option StateCell := lookupL st.states sid
def getComp (st : Sys) (cid : Nat) : Option Computed := lookupL st.comps cid
def getRec (st : Sys) (rid : Nat) : Option CompRec := lookupL st.recs rid
def getEff (st : Sys) (eid : Nat) : Option Eff := lookupL st.effs eid

def updState (st : Sys) (sid : Nat) (f : StateCell → StateCell) : Sys :=
  { st with states := updateL st.states sid f }
def updComp (st : Sys) (cid : Nat) (f : Computed → Computed) : Sys :=
  { st with comps := updateL st.comps cid f }
def updRec (st : Sys) (rid : Nat) (f : CompRec → CompRec) : Sys :=
  { st with recs := updateL st.recs rid f }
def updEff (st : Sys) (eid : Nat) (f : Eff → Eff) : Sys :=
  { st with effs := updateL st.effs eid f }

/-- Is `sid` a `Signal.State` (as opposed to a `Signal.Computed`)? -/
def isStateId (st : Sys) (sid : Nat) : Bool := (getState st sid).isSome

/-- The subscriber set of a signal (state or computed). -/
def subsOf (st : Sys) (sid : Nat) : List Subr :=
  match getState st sid with
  | some s => s.subscribers
  | none =>
    match getComp st sid with
    | some c => c.subscribers
    | none => []

/-- `signal._subscribers.add(sub)` on either signal kind. -/
def addSub (st : Sys) (sid : Nat) (sub : Subr) : Sys :=
  if isStateId st sid then
    updState st sid (fun s => { s with subscribers := setAdd s.subscribers sub })
  else
    updComp st sid (fun c => { c with subscribers := setAdd c.subscribers sub })

/-- `Signal._triggerUnwatchedCallbacks(signal)`: when the subscriber set is
empty and an unwatched callback exists, invoke it (counted). -/
def triggerUnwatchedCallbacks (st : Sys) (sid : Nat) : Sys :=
  if isStateId st sid then
    updState st sid (fun s =>
      if s.subscribers.isEmpty ∧ s.hasUnwatched then
        { s with unwatchedCount := s.unwatchedCount + 1 }
      else s)
  else
    updComp st sid (fun c =>
      if c.subscribers.isEmpty ∧ c.hasUnwatched then
        { c with unwatchedCount := c.unwatchedCount + 1 }
      else c)

/-- `SignalSystem.removeSubscriber(dep, subscriber)`: delete the given object
from the dependency's subscriber set, then trigger unwatched callbacks. -/
def removeSubscriber (st : Sys) (sid : Nat) (sub : Subr) : Sys :=
  let st :=
    if isStateId st sid then
      updState st sid (fun s => { s with subscribers := setDel s.subscribers sub })
    else
      updComp st sid (fun c => { c with subscribers := setDel c.subscribers sub })
  triggerUnwatchedCallbacks st sid

/-- Record a dependency on `currentComputation.dependencies` (the record's
set; for a computed-owned record this set *is* the owner's current
`_dependencies`; for an effect record the shared set lives on the effect). -/
def recAddDep (st : Sys) (rid : Nat) (sid : Nat) : Sys :=
  match getRec st rid with
  | none => st
  | some r =>
    match r.owner with
    | RecOwner.comp _ => updRec st rid (fun r => { r with deps := setAdd r.deps sid })
    | RecOwner.eff eid => updEff st eid (fun e => { e with deps := setAdd e.deps sid })

/-- Does this signal have watched callbacks configured? -/
def hasWatchedCb (st : Sys) (sid : Nat) : Bool :=
  match getState st sid with
  | some s => s.hasWatched
  | none =>
    match getComp st sid with
    | some c => c.hasWatched
    | none => false

/-- Count one invocation of each configured watched callback. -/
def runWatchedCbs (st : Sys) (sid : Nat) : Sys :=
  if isStateId st sid then
    updState st sid (fun s =>
      if s.hasWatched then { s with watchedCount := s.watchedCount + 1 } else s)
  else
    updComp st sid (fun c =>
      if c.hasWatched then { c with watchedCount := c.watchedCount + 1 } else c)

/-- `Signal._trackDependency()` for the signal `sid`: if a computation is
current, add it to the subscriber set, record the edge on the computation's
dependency set, and run every watched callback. -/
def trackDependency (st : Sys) (sid : Nat) : Sys :=
  match st.currentComputation with
  | none => st
  | some rid =>
    let st := addSub st sid (Subr.record rid)
    let st := recAddDep st rid sid
    runWatchedCbs st sid

/-- Enqueue the subscribers of a signal on the update queue
(`scheduleUpdate`'s forEach body): watcher callbacks are functions and are
queued directly; computation records are queued through their `invalidate`
closure; a bare signal object is neither and is skipped. -/
def enqueueSubs (st : Sys) (subs : List Subr) : Sys :=
  subs.foldl
    (fun st sub =>
      match sub with
      | Subr.wcb e s => { st with updateQueue := setAdd st.updateQueue (QIt.wcb e s) }
      | Subr.record rid => { st with updateQueue := setAdd st.updateQueue (QIt.invalidate rid) }
      | Subr.sigObj _ => st)
    st

/-- `scheduleWatcherNotification(watcher)`: queue the watcher and mark the
shared microtask as scheduled (the microtask itself is
`flushWatcherNotifications`, which the scenarios invoke explicitly, as the
test suite does by awaiting a timer). -/
def scheduleWatcherNotification (st : Sys) (eid : Nat) : Sys :=
  let st := { st with watcherQueue := setAdd st.watcherQueue eid }
  if st.isWatcherScheduled then st else { st with isWatcherScheduled := true }

/-- Run one update-queue item.  An `invalidate` closure of a computed-owned
record marks the owner stale and enqueues the owner's subscribers (its
`scheduleUpdate` call re-enters the scheduler while `isUpdating` is true, so
only the enqueue part acts); an effect record's `invalidate` is `() => {}`;
a watcher callback adds the signal to the watcher's pending set and
schedules the notification microtask. -/
def runQIt (st : Sys) (q : QIt) : Sys :=
  match q with
  | QIt.invalidate rid =>
    match getRec st rid with
    | none => st
    | some r =>
      match r.owner with
      | RecOwner.eff _ => st
      | RecOwner.comp cid =>
        match getComp st cid with
        | none => st
        | some c =>
          let st := updComp st cid (fun c => { c with isStale := true })
          enqueueSubs st c.subscribers
  | QIt.wcb eid sid =>
    match getEff st eid with
    | none => st
    | some e =>
      let st := updEff st eid (fun e =>
        { e with pendingSignals := setAdd e.pendingSignals sid })
      if e.isNotifying then st else scheduleWatcherNotification st eid

/-- One pass of the flush loop over a queue snapshot. -/
def flushPass (st : Sys) (items : List QIt) : Sys :=
  items.foldl runQIt st

/-- The `while` loop of `flushUpdates`, bounded by `maxFlushes = 1000`;
exhausting the bound clears the queue (runaway-cascade protection). -/
def flushLoop : Nat → Sys → Sys
  | 0, st => { st with updateQueue := [] }
  | n + 1, st =>
    if st.updateQueue.isEmpty then st
    else
      let items := st.updateQueue
      let st := { st with updateQueue := [] }
      flushLoop n (flushPass st items)

/-- `SignalSystem.flushUpdates()`. -/
def flushUpdates (st : Sys) : Sys :=
  if st.isUpdating then st
  else
    let st := { st with isUpdating := true }
    let st := flushLoop 1000 st
    { st with isUpdating := false }

/-- `SignalSystem.scheduleUpdate(subscribers)`. -/
def scheduleUpdate (st : Sys) (subs : List Subr) : Sys :=
  let st := enqueueSubs st subs
  if st.isUpdating then st else flushUpdates st

/-- `Signal.State.prototype.get`. -/
def stateGet (st : Sys) (sid : Nat) : Sys × Except JSErr JSVal :=
  match getState st sid with
  | none => (st, Except.error (JSErr.err "no such state"))
  | some s =>
    if s.disposed then (st, Except.error (JSErr.err "Cannot access disposed signal"))
    else
      let st := trackDependency st sid
      match getState st sid with
      | some s' => (st, Except.ok s'.value)
      | none => (st, Except.error (JSErr.err "no such state"))

/-- `Signal.State.prototype.set` (default `===` equality, as in every
scenario the claims use). -/
def stateSet (st : Sys) (sid : Nat) (v : JSVal) : Sys × Except JSErr JSVal :=
  match getState st sid with
  | none => (st, Except.error (JSErr.err "no such state"))
  | some s =>
    if s.disposed then
      (st, Except.error (JSErr.err "Cannot set value on disposed signal"))
    else if jsStrictEq s.value v then (st, Except.ok JSVal.undef)
    else
      let st := updState st sid (fun s => { s with value := v })
      (scheduleUpdate st s.subscribers, Except.ok JSVal.undef)

/-- `Signal.State.prototype.peek`: returns `_value` with no checks at all. -/
def statePeek (st : Sys) (sid : Nat) : JSVal :=
  match getState st sid with
  | some s => s.value
  | none => JSVal.undef

/-- `Signal.State.prototype.dispose`. -/
def stateDispose (st : Sys) (sid : Nat) : Sys :=
  updState st sid (fun s =>
    { s with subscribers := [], hasWatched := false, hasUnwatched := false,
             value := JSVal.undef, disposed := true })

/-- The dependency set (`_dependencies`) of a `Computed`: the `deps` set of
its current computation record (empty before the first recomputation). -/
def compDeps (st : Sys) (cid : Nat) : List Nat :=
  match getComp st cid with
  | some c =>
    match c.curRec with
    | some r => ((getRec st r).map (fun r => r.deps)).getD []
    | none => []
  | none => []

/-- The setup statements of `_computeValue` (after the guards): set the
"currently evaluating" flag, save the previous computation and the old
dependency set, create the fresh computation record aliased with the new
`_dependencies` set, and push it as the current frame.  Returns the new
state together with the locals `(oldDependencies, computation, prevComputation)`. -/
def computeValueSetup (st : Sys) (cid : Nat) : Sys × List Nat × Nat × Option Nat :=
  let st := updComp st cid (fun c => { c with isComputing := true })
  let prev := st.currentComputation
  let oldDeps := compDeps st cid
  let rid := st.nextRec
  let st := { st with nextRec := rid + 1,
                      recs := st.recs ++ [(rid, { owner := RecOwner.comp cid, deps := [] })] }
  let st := updComp st cid (fun c => { c with curRec := some rid })
  let st := { st with currentComputation := some rid,
                      computationStack := st.computationStack ++ [rid] }
  (st, oldDeps, rid, prev)

mutual

/-- Interpreter for derivation bodies.  Fuel is a termination device only
(one unit per interpreter step): every scenario below runs far inside the
supplied fuel. -/
def evalExpr (fuel : Nat) (st : Sys) (e : Expr) : Sys × Except JSErr JSVal :=
  match fuel with
  | 0 => (st, Except.error (JSErr.err "out of fuel"))
  | n + 1 =>
    match e with
    | Expr.lit v => (st, Except.ok v)
    | Expr.getSig sid =>
      if isStateId st sid then stateGet st sid else computedGet n st sid
    | Expr.peekSig sid =>
      if isStateId st sid then (st, Except.ok (statePeek st sid)) else computedPeek n st sid
    | Expr.add a b =>
      match evalExpr n st a with
      | (st, Except.ok va) =>
        match evalExpr n st b with
        | (st, Except.ok vb) => (st, Except.ok (jsAdd va vb))
        | (st, Except.error e) => (st, Except.error e)
      | (st, Except.error e) => (st, Except.error e)
    | Expr.seq a b =>
      match evalExpr n st a with
      | (st, Except.ok _) => evalExpr n st b
      | (st, Except.error e) => (st, Except.error e)
    | Expr.ite c t e =>
      match evalExpr n st c with
      | (st, Except.ok v) => if truthy v then evalExpr n st t else evalExpr n st e
      | (st, Except.error e) => (st, Except.error e)
    | Expr.throwErr m => (st, Except.error (JSErr.err m))
termination_by structural fuel

/-- `Signal.Computed.prototype.get`. -/
def computedGet (fuel : Nat) (st : Sys) (cid : Nat) : Sys × Except JSErr JSVal :=
  match fuel with
  | 0 => (st, Except.error (JSErr.err "out of fuel"))
  | n + 1 =>
    match getComp st cid with
    | none => (st, Except.error (JSErr.err "no such computed"))
    | some _ =>
      match getComp st cid with
      | some c0 =>
        if c0.disposed then
          (st, Except.error (JSErr.err "Cannot access disposed computed signal"))
        else
          let st := trackDependency st cid
          match getComp st cid with
          | none => (st, Except.error (JSErr.err "no such computed"))
          | some c =>
            if c.isStale && !c.isComputing then
              match computeValue n st cid with
              | (st, Except.ok _) =>
                match getComp st cid with
                | some c' => (st, Except.ok c'.cachedValue)
                | none => (st, Except.error (JSErr.err "no such computed"))
              | (st, Except.error e) => (st, Except.error e)
            else (st, Except.ok c.cachedValue)
      | none => (st, Except.error (JSErr.err "no such computed"))
termination_by structural fuel

/-- `Signal.Computed.prototype.peek`: staleness-triggered recomputation with
the current computation temporarily cleared (`withContextIsolation`), so no
dependency edge is created in either direction, no computation record is
made, and the computed's own `_dependencies` set is untouched. -/
def computedPeek (fuel : Nat) (st : Sys) (cid : Nat) : Sys × Except JSErr JSVal :=
  match fuel with
  | 0 => (st, Except.error (JSErr.err "out of fuel"))
  | n + 1 =>
    match getComp st cid with
    | none => (st, Except.error (JSErr.err "no such computed"))
    | some c =>
      if c.isStale && !c.isComputing then
        let prev := st.currentComputation
        let st := { st with currentComputation := none }
        let p :=
          match c.callback with
          | some cb =>
            evalExpr n (updComp st cid (fun c => { c with runCount := c.runCount + 1 })) cb
          | none => (st, Except.error (JSErr.err "TypeError: this._callback is null"))
        let st :=
          match p.2 with
          | Except.ok v =>
            updComp p.1 cid (fun c => { c with cachedValue := v, isStale := false })
          | Except.error _ => p.1
        let st := { st with currentComputation := prev }
        match p.2 with
        | Except.ok _ =>
          match getComp st cid with
          | some c' => (st, Except.ok c'.cachedValue)
          | none => (st, Except.error (JSErr.err "no such computed"))
        | Except.error e => (st, Except.error e)
      else (st, Except.ok c.cachedValue)
termination_by structural fuel

/-- The `ErrorHandler.withCleanup(operation, teardown)` call inside
`_computeValue`: run the derivation (counting the run), on success cache the
value, clear staleness and prune edges no longer read; in all cases restore
the previous computation, pop the frame stack, clear the guard and
decrement the depth.  `st` is the state after the setup statements of
`_computeValue`; `cb`, `oldDeps`, `rid` and `prev` are its locals
(`this._callback`, `oldDependencies`, the fresh `computation` record and
`prevComputation`). -/
def computeValueGo (fuel : Nat) (st : Sys) (cid : Nat) (cb : Option Expr)
    (oldDeps : List Nat) (rid : Nat) (prev : Option Nat) : Sys × Except JSErr Unit :=
  match fuel with
  | 0 =>
    let st := { st with currentComputation := prev,
                        computationStack := st.computationStack.dropLast,
                        computationDepth := st.computationDepth - 1 }
    (updComp st cid (fun c => { c with isComputing := false }),
      Except.error (JSErr.err "out of fuel"))
  | n + 1 =>
    let p :=
      match cb with
      | some cb =>
        evalExpr n (updComp st cid (fun c => { c with runCount := c.runCount + 1 })) cb
      | none => (st, Except.error (JSErr.err "TypeError: this._callback is null"))
    let q : Sys × Except JSErr Unit :=
      match p.2 with
      | Except.ok v =>
        let st := updComp p.1 cid (fun c => { c with cachedValue := v, isStale := false })
        let newDeps := ((getRec st rid).map (fun r => r.deps)).getD []
        let st := oldDeps.foldl
          (fun st dep =>
            if dep ∈ newDeps then st else removeSubscriber st dep (Subr.record rid)) st
        (st, Except.ok ())
      | Except.error e => (p.1, Except.error e)
    let st := { q.1 with currentComputation := prev,
                         computationStack := q.1.computationStack.dropLast,
                         computationDepth := q.1.computationDepth - 1 }
    (updComp st cid (fun c => { c with isComputing := false }), q.2)
termination_by structural fuel

/-- `Signal.Computed.prototype._computeValue`: the reentrancy and depth
guards, the setup statements, then `computeValueGo` (the `withCleanup`). -/
def computeValue (fuel : Nat) (st : Sys) (cid : Nat) : Sys × Except JSErr Unit :=
  match fuel with
  | 0 => (st, Except.error (JSErr.err "out of fuel"))
  | n + 1 =>
    match getComp st cid with
    | none => (st, Except.error (JSErr.err "no such computed"))
    | some c =>
      if c.isComputing then
        (st, Except.error (JSErr.err "Circular dependency detected in computed signal"))
      else
        let st := { st with computationDepth := st.computationDepth + 1 }
        if st.computationDepth > st.maxComputationDepth then
          ({ st with computationDepth := st.computationDepth - 1 },
            Except.error (JSErr.err "Maximum computation depth exceeded"))
        else if st.computationStack.any (fun rid =>
            match getRec st rid with
            | some r => decide (r.owner = RecOwner.comp cid)
            | none => false) then
          ({ st with computationDepth := st.computationDepth - 1 },
            Except.error (JSErr.err "Circular dependency detected in computed signal"))
        else
          let s := computeValueSetup st cid
          computeValueGo n s.1 cid c.callback s.2.1 s.2.2.1 s.2.2.2

termination_by structural fuel
end

/-- `Signal.Computed.prototype.dispose`.  The source iterates
`this._dependencies` and calls `removeSubscriber(dep, this)` — passing the
Computed object itself (`Subr.sigObj cid`), while the entries the dependency
sets actually hold are computation records. -/
def computedDispose (st : Sys) (cid : Nat) : Sys :=
  match getComp st cid with
  | none => st
  | some c =>
    let deps := compDeps st cid
    let st := deps.foldl (fun st dep => removeSubscriber st dep (Subr.sigObj cid)) st
    let st :=
      match c.curRec with
      | some r => updRec st r (fun r => { r with deps := [] })
      | none => st
    updComp st cid (fun c =>
      { c with subscribers := [], hasWatched := false, hasUnwatched := false,
               callback := none, cachedValue := JSVal.undef, disposed := true })

/-- `Watcher.prototype.unwatch` for a single signal: drop it from the
watched/pending sets and delete this watcher's callback closure from the
signal's subscriber set (then trigger unwatched callbacks). -/
def watcherUnwatchOne (st : Sys) (eid : Nat) (sid : Nat) : Sys :=
  match getEff st eid with
  | none => st
  | some e =>
    if sid ∈ e.watchedSignals then
      let st := updEff st eid (fun e =>
        { e with watchedSignals := setDel e.watchedSignals sid,
                 pendingSignals := setDel e.pendingSignals sid })
      match (subsOf st sid).find? (fun s =>
          match s with
          | Subr.wcb e' _ => decide (e' = eid)
          | _ => false) with
      | some sub => removeSubscriber st sid sub
      | none => st
    else st

/-- `Watcher.prototype.watch` for a single signal: if not already watched,
record it and add a fresh watcher callback closure to its subscriber set. -/
def watcherWatchOne (st : Sys) (eid : Nat) (sid : Nat) : Sys :=
  match getEff st eid with
  | none => st
  | some e =>
    if sid ∈ e.watchedSignals then st
    else
      let st := updEff st eid (fun e =>
        { e with watchedSignals := setAdd e.watchedSignals sid })
      addSub st sid (Subr.wcb eid sid)

/-- `runEffect` inside `effect(fn)`: run pending cleanup, unwatch old
dependencies, evaluate `fn` under a fresh effect computation record
(errors swallowed by `safeExecute`), store a returned cleanup, watch the
newly read signals, and restore the previous computation. -/
def runEffect (fuel : Nat) (st : Sys) (eid : Nat) : Sys :=
  match getEff st eid with
  | none => st
  | some e =>
    let st := updEff st eid (fun e =>
      if e.hasCleanup then { e with cleanupCount := e.cleanupCount + 1 } else e)
    let st := updEff st eid (fun e => { e with hasCleanup := false })
    let st :=
      if e.deps.isEmpty then st
      else e.deps.foldl (fun st sid => watcherUnwatchOne st eid sid) st
    let st := updEff st eid (fun e => { e with deps := [] })
    let prev := st.currentComputation
    let rid := st.nextRec
    let st := { st with nextRec := rid + 1,
                        recs := st.recs ++ [(rid, ({ owner := RecOwner.eff eid } : CompRec))] }
    let st := { st with currentComputation := some rid }
    let st := updEff st eid (fun e => { e with runCount := e.runCount + 1 })
    let p := evalExpr fuel st e.body
    let st :=
      match p.2 with
      | Except.ok _ =>
        if e.returnsCleanup then updEff p.1 eid (fun e => { e with hasCleanup := true })
        else p.1
      | Except.error _ => p.1
    let st :=
      match getEff st eid with
      | some e' =>
        if e'.deps.isEmpty then st
        else e'.deps.foldl (fun st sid => watcherWatchOne st eid sid) st
      | none => st
    { st with currentComputation := prev }

/-- `effect(fn)`: register the effect (with its `Watcher`) and run it once. -/
def effectNew (fuel : Nat) (st : Sys) (eid : Nat) (body : Expr)
    (returnsCleanup : Bool) : Sys :=
  let st := { st with effs := st.effs ++ [(eid, { body := body, returnsCleanup := returnsCleanup })] }
  runEffect fuel st eid

/-- The disposal closure returned by `effect(fn)`: mark inactive, run the
pending cleanup (the source does NOT clear the `cleanup` reference here),
unwatch everything, clear the dependency set. -/
def effectDispose (st : Sys) (eid : Nat) : Sys :=
  match getEff st eid with
  | none => st
  | some _ =>
    let st := updEff st eid (fun e => { e with isActive := false })
    let st := updEff st eid (fun e =>
      if e.hasCleanup then { e with cleanupCount := e.cleanupCount + 1 } else e)
    let st :=
      match getEff st eid with
      | some e =>
        if e.deps.isEmpty then st
        else e.deps.foldl (fun st sid => watcherUnwatchOne st eid sid) st
      | none => st
    updEff st eid (fun e => { e with deps := [] })

/-- `SignalSystem.flushWatcherNotifications` — the body of the shared
microtask that delivers coalesced watcher notifications.  The notify
callback of an effect's watcher is `() => { if (isActive) runEffect(); }`. -/
def flushWatcherNotifications (fuel : Nat) (st : Sys) : Sys :=
  if st.watcherQueue.isEmpty then { st with isWatcherScheduled := false }
  else
    let ws := st.watcherQueue
    let st := { st with watcherQueue := [], isWatcherScheduled := false }
    ws.foldl
      (fun st eid =>
        match getEff st eid with
        | none => st
        | some e =>
          if !e.pendingSignals.isEmpty && !e.isNotifying then
            let st := updEff st eid (fun e => { e with isNotifying := true })
            let st := if e.isActive then runEffect fuel st eid else st
            updEff st eid (fun e => { e with pendingSignals := [], isNotifying := false })
          else st)
      st

/-- `SignalSystem.batch(fn)` for a body that performs writes (every batch in
the claims).  `fn` throwing is not modelled: the scenario bodies are
sequences of `set` calls, which the source only lets throw on disposed
cells. -/
def batch (st : Sys) (f : Sys → Sys) : Sys :=
  let wasUpdating := st.isUpdating
  let st := { st with isUpdating := true }
  let st := f st
  let st := if wasUpdating then st else flushUpdates { st with isUpdating := false }
  { st with isUpdating := wasUpdating }

/-! ### Scenarios

Concrete systems exercising the claims, built exactly as the repository's
demo and test suite build them: `new Signal.State(...)`, `new
Signal.Computed(...)`, `effect(...)`, then `get`/`set`/`peek`/`dispose`/
`batch` calls.  Fuel 50 is far above what any scenario consumes. -/

/-- C1 scenario: `s = new Signal.State(1); c = new Signal.Computed(() => s.get())`. -/
def c1Sys : Sys :=
  { states := [(0, { value := JSVal.num 1 })],
    comps := [(1, { callback := some (Expr.getSig 0) })] }

/-- C1: after `c.get()`. -/
def c1Warm : Sys := (computedGet 50 c1Sys 1).1

/-- C1: after `c.dispose()`. -/
def c1Disposed : Sys := computedDispose c1Warm 1

/-- C2 scenario, the cycle from the repository's own documentation:
`a = new Signal.Computed(() => b.get() + 1); b = new Signal.Computed(() => a.get() + 1)`. -/
def c2Sys : Sys :=
  { comps := [(0, { callback := some (Expr.add (Expr.getSig 1) (Expr.lit (JSVal.num 1))) }),
              (1, { callback := some (Expr.add (Expr.getSig 0) (Expr.lit (JSVal.num 1))) })] }

/-- C2: the state at the moment `a`'s derivation starts running (the frame
for `a`'s computation record pushed, guards passed). -/
def c2MidA : Sys :=
  { comps := [(0, { callback := some (Expr.add (Expr.getSig 1) (Expr.lit (JSVal.num 1))),
                    curRec := some 0, isComputing := true }),
              (1, { callback := some (Expr.add (Expr.getSig 0) (Expr.lit (JSVal.num 1))) })],
    recs := [(0, { owner := RecOwner.comp 0 })],
    nextRec := 1, currentComputation := some 0, computationStack := [0],
    computationDepth := 1 }

/-- C2: the state after `a.get()` returns — both computeds cached `NaN`
(the reentrant inner `a.get()` returned the cached `undefined`, and
`undefined + 1` is `NaN`), both fresh, no error anywhere. -/
def c2AfterA : Sys :=
  { comps := [(0, { callback := some (Expr.add (Expr.getSig 1) (Expr.lit (JSVal.num 1))),
                    subscribers := [Subr.record 1], curRec := some 0, isStale := false,
                    cachedValue := JSVal.nan, runCount := 1 }),
              (1, { callback := some (Expr.add (Expr.getSig 0) (Expr.lit (JSVal.num 1))),
                    subscribers := [Subr.record 0], curRec := some 1, isStale := false,
                    cachedValue := JSVal.nan, runCount := 1 })],
    recs := [(0, { owner := RecOwner.comp 0, deps := [1] }),
             (1, { owner := RecOwner.comp 1, deps := [0] })],
    nextRec := 2 }

/-- C3/C4 scenario: a computed over a flag and two cells whose derivation
throws when the flag is set, after reading only part of its dependencies:
`flag ? (s1.get(), throw) : (s1.get(), s2.get())`. -/
def throwSys : Sys :=
  { states := [(0, { value := JSVal.bool false }),
               (1, { value := JSVal.num 1 }), (2, { value := JSVal.num 2 })],
    comps := [(3, { callback := some (Expr.ite (Expr.getSig 0)
        (Expr.seq (Expr.getSig 1) (Expr.throwErr "boom"))
        (Expr.seq (Expr.getSig 1) (Expr.getSig 2))) })] }

/-- C3/C4: after a first, successful `get()` (dependency set `{flag, s1, s2}`). -/
def throwWarm : Sys := (computedGet 50 throwSys 3).1

/-- C3/C4: after `flag.set(true)` invalidates the computed. -/
def throwStale : Sys := (stateSet throwWarm 0 (JSVal.bool true)).1

/-- C3/C4: after the recomputation that throws. -/
def throwFailed : Sys := (computedGet 50 throwStale 3).1

/-- C3 amended scenario, parametric: a computed whose derivation reads a
cell and then throws `msg`. -/
def c3Sys (msg : String) (v : Int) : Sys :=
  { states := [(0, { value := JSVal.num v })],
    comps := [(1, { callback := some (Expr.seq (Expr.getSig 0) (Expr.throwErr msg)) })] }

/-- The state after the first (throwing) `get()` on `c3Sys`: the error was
not cached, staleness was not cleared, the partial dependency set `{0}` was
installed on the fresh record. -/
def c3St1 (msg : String) (v : Int) : Sys :=
  { states := [(0, { value := JSVal.num v, subscribers := [Subr.record 0] })],
    comps := [(1, { callback := some (Expr.seq (Expr.getSig 0) (Expr.throwErr msg)),
                    curRec := some 0, runCount := 1 })],
    recs := [(0, { owner := RecOwner.comp 1, deps := [0] })],
    nextRec := 1 }

/-- C5 scenario: a state with an `onWatched` callback, read twice by one
computed; a second computed reads it once more. -/
def c5Sys : Sys :=
  { states := [(0, { value := JSVal.num 1, hasWatched := true })],
    comps := [(1, { callback := some (Expr.add (Expr.getSig 0) (Expr.getSig 0)) }),
              (2, { callback := some (Expr.getSig 0) })] }

/-- C5: after `c1.get()` (one new subscriber, two tracked reads). -/
def c5Warm : Sys := (computedGet 50 c5Sys 1).1

/-- C5: after `c2.get()` as well (a second subscriber). -/
def c5Warm2 : Sys := (computedGet 50 c5Warm 2).1

/-- C6 scenario: `const dispose = effect(() => { s.get(); return cleanup })`. -/
def c6Sys : Sys := { states := [(0, { value := JSVal.num 10 })] }

/-- C6: after the initial effect run. -/
def c6Run : Sys := effectNew 50 c6Sys 0 (Expr.getSig 0) true

/-- C6 sanity: `s.set(20)` then the notification microtask — a normal rerun. -/
def c6Rerun : Sys := flushWatcherNotifications 50 (stateSet c6Run 0 (JSVal.num 20)).1

/-- C6: after the first `dispose()` call. -/
def c6D1 : Sys := effectDispose c6Run 0

/-- C6: after the second `dispose()` call. -/
def c6D2 : Sys := effectDispose c6D1 0

/-- C6: `s.set(30)` after disposal, then the notification microtask. -/
def c6PostDispose : Sys := flushWatcherNotifications 50 (stateSet c6D1 0 (JSVal.num 30)).1

/-- C7 scenario: `s1 = State(1); s2 = State(2); c = Computed(() => s1.get() + s2.get())`. -/
def c7Sys : Sys :=
  { states := [(0, { value := JSVal.num 1 }), (1, { value := JSVal.num 2 })],
    comps := [(2, { callback := some (Expr.add (Expr.getSig 0) (Expr.getSig 1)) })] }

/-- C7: the state after `c.get()` (checked against `c7Sys` by evaluation in
the claim theorem). -/
def c7Warm : Sys :=
  { states := [(0, { value := JSVal.num 1, subscribers := [Subr.record 0] }),
               (1, { value := JSVal.num 2, subscribers := [Subr.record 0] })],
    comps := [(2, { callback := some (Expr.add (Expr.getSig 0) (Expr.getSig 1)),
                    curRec := some 0, isStale := false, cachedValue := JSVal.num 3,
                    runCount := 1 })],
    recs := [(0, { owner := RecOwner.comp 2, deps := [0, 1] })],
    nextRec := 1 }

/-- C7: `batch(() => { s1.set(x); s2.set(y) })` from the warmed-up state. -/
def c7AfterBatch (x y : Int) : Sys :=
  batch c7Warm (fun st => (stateSet (stateSet st 0 (JSVal.num x)).1 1 (JSVal.num y)).1)

/-- C7 intermediate: after `s1.set(x)` inside the batch (one coalesced
invalidation queued, no flush because `isUpdating` is held true). -/
def c7Mid1 (x : Int) : Sys :=
  { states := [(0, { value := JSVal.num x, subscribers := [Subr.record 0] }),
               (1, { value := JSVal.num 2, subscribers := [Subr.record 0] })],
    comps := [(2, { callback := some (Expr.add (Expr.getSig 0) (Expr.getSig 1)),
                    curRec := some 0, isStale := false, cachedValue := JSVal.num 3,
                    runCount := 1 })],
    recs := [(0, { owner := RecOwner.comp 2, deps := [0, 1] })],
    nextRec := 1, updateQueue := [QIt.invalidate 0], isUpdating := true }

/-- C7 intermediate: after `s2.set(y)` as well — the queue still holds the
single deduplicated invalidation of `c`'s computation record. -/
def c7Mid2 (x y : Int) : Sys :=
  { states := [(0, { value := JSVal.num x, subscribers := [Subr.record 0] }),
               (1, { value := JSVal.num y, subscribers := [Subr.record 0] })],
    comps := [(2, { callback := some (Expr.add (Expr.getSig 0) (Expr.getSig 1)),
                    curRec := some 0, isStale := false, cachedValue := JSVal.num 3,
                    runCount := 1 })],
    recs := [(0, { owner := RecOwner.comp 2, deps := [0, 1] })],
    nextRec := 1, updateQueue := [QIt.invalidate 0], isUpdating := true }

/-- C7: the state after the batch returns — both writes visible, `c` marked
stale exactly once, not recomputed (`runCount` still 1). -/
def c7BatchLit (x y : Int) : Sys :=
  { states := [(0, { value := JSVal.num x, subscribers := [Subr.record 0] }),
               (1, { value := JSVal.num y, subscribers := [Subr.record 0] })],
    comps := [(2, { callback := some (Expr.add (Expr.getSig 0) (Expr.getSig 1)),
                    curRec := some 0, isStale := true, cachedValue := JSVal.num 3,
                    runCount := 1 })],
    recs := [(0, { owner := RecOwner.comp 2, deps := [0, 1] })],
    nextRec := 1 }

/-- C9 scenario: `s = State(10); c = Computed(() => s.get() + s.get())`,
never read before the first `peek()`. -/
def c9Sys : Sys :=
  { states := [(0, { value := JSVal.num 10 })],
    comps := [(1, { callback := some (Expr.add (Expr.getSig 0) (Expr.getSig 0)) })] }

/-- C9: after the first `c.peek()`. -/
def c9Peek : Sys := (computedPeek 50 c9Sys 1).1

/-- C9: the same state, written out: `c` is fresh with the peeked value
cached, but no computation record exists, `c`'s dependency set is still
empty, and `s` has no subscribers. -/
def c9PeekLit : Sys :=
  { states := [(0, { value := JSVal.num 10 })],
    comps := [(1, { callback := some (Expr.add (Expr.getSig 0) (Expr.getSig 0)),
                    isStale := false, cachedValue := JSVal.num 20, runCount := 1 })] }

/-- C10 scenario: a state cell holding an arbitrary value. -/
def c10Sys (v : JSVal) : Sys := { states := [(0, { value := v })] }

/-- C10: after `dispose()`. -/
def c10Disposed (v : JSVal) : Sys := stateDispose (c10Sys v) 0

/-! ### Helper lemmas -/

/-- `===` on two number values with distinct numerators is false. -/
theorem jsStrictEq_num_ne (m n : Int) (h : m ≠ n) :
    jsStrictEq (JSVal.num m) (JSVal.num n) = false := by
  simp [jsStrictEq, h]

/-- `State.set` on a live cell with an unequal value: store and schedule. -/
theorem stateSet_of_ne (st : Sys) (sid : Nat) (c : StateCell) (v : JSVal)
    (hs : getState st sid = some c) (hd : c.disposed = false)
    (hne : jsStrictEq c.value v = false) :
    stateSet st sid v =
      (scheduleUpdate (updState st sid (fun s => { s with value := v })) c.subscribers,
        Except.ok JSVal.undef) := by
  unfold stateSet
  rw [hs]
  simp [hd, hne]

/-- Inside a batch, the two writes update the two cells and coalesce into a
single queued invalidation; the flush on batch exit marks the computed stale
once and runs nothing else. -/
theorem c7_batch_eq (x y : Int) (h1 : x ≠ 1) (h2 : y ≠ 2) :
    c7AfterBatch x y = c7BatchLit x y := by
  have e1 := stateSet_of_ne { c7Warm with isUpdating := true } 0
      { value := JSVal.num 1, subscribers := [Subr.record 0] } (JSVal.num x) rfl rfl
      (jsStrictEq_num_ne 1 x (Ne.symm h1))
  have r1 : scheduleUpdate (updState { c7Warm with isUpdating := true } 0
      (fun s => { s with value := JSVal.num x })) [Subr.record 0] = c7Mid1 x := rfl
  have e1' : stateSet { c7Warm with isUpdating := true } 0 (JSVal.num x) =
      (c7Mid1 x, Except.ok JSVal.undef) := by rw [e1, r1]
  have e2 := stateSet_of_ne (c7Mid1 x) 1
      { value := JSVal.num 2, subscribers := [Subr.record 0] } (JSVal.num y) rfl rfl
      (jsStrictEq_num_ne 2 y (Ne.symm h2))
  have r2 : scheduleUpdate (updState (c7Mid1 x) 1
      (fun s => { s with value := JSVal.num y })) [Subr.record 0] = c7Mid2 x y := rfl
  have e2' : stateSet (c7Mid1 x) 1 (JSVal.num y) = (c7Mid2 x y, Except.ok JSVal.undef) := by
    rw [e2, r2]
  calc c7AfterBatch x y
      = { flushUpdates { (stateSet (stateSet { c7Warm with isUpdating := true } 0
            (JSVal.num x)).1 1 (JSVal.num y)).1 with isUpdating := false }
          with isUpdating := false } := rfl
    _ = { flushUpdates { (c7Mid2 x y) with isUpdating := false }
          with isUpdating := false } := by rw [e1', e2']
    _ = c7BatchLit x y := rfl

/-- `_triggerUnwatchedCallbacks` does not touch the current computation. -/
theorem triggerUnwatched_cc (st : Sys) (sid : Nat) :
    (triggerUnwatchedCallbacks st sid).currentComputation = st.currentComputation := by
  unfold triggerUnwatchedCallbacks
  split <;> rfl

/-- `removeSubscriber` does not touch the current computation. -/
theorem removeSubscriber_cc (st : Sys) (sid : Nat) (sub : Subr) :
    (removeSubscriber st sid sub).currentComputation = st.currentComputation := by
  unfold removeSubscriber
  split <;> exact triggerUnwatched_cc _ _

/-- A fold of current-computation-preserving steps preserves it. -/
theorem foldl_cc {a : Type} (g : Sys → a → Sys)
    (h : ∀ s x, (g s x).currentComputation = s.currentComputation) :
    ∀ (l : List a) (st : Sys), (l.foldl g st).currentComputation = st.currentComputation := by
  intro l
  induction l with
  | nil => intro st; rfl
  | cons hd tl ih => intro st; rw [List.foldl_cons, ih, h]

/-- `Watcher.unwatch` of one signal does not touch the current computation. -/
theorem watcherUnwatchOne_cc (st : Sys) (eid sid : Nat) :
    (watcherUnwatchOne st eid sid).currentComputation = st.currentComputation := by
  unfold watcherUnwatchOne
  split
  · rfl
  · split_ifs
    · dsimp only
      split
      · rw [removeSubscriber_cc]; rfl
      · rfl
    · rfl

/-- `_computeValue` restores the current computation on every exit path:
both detection throws leave it untouched, and the `withCleanup` teardown
assigns the saved previous frame back unconditionally, whether the
derivation returned or threw. -/
theorem computeValueGo_cc (fuel : Nat) (st : Sys) (cid : Nat) (cb : Option Expr)
    (oldDeps : List Nat) (rid : Nat) (prev : Option Nat) :
    (computeValueGo fuel st cid cb oldDeps rid prev).1.currentComputation = prev := by
  cases fuel with
  | zero => rfl
  | succ n => rfl

theorem computeValue_cc (fuel : Nat) (st : Sys) (cid : Nat) :
    (computeValue fuel st cid).1.currentComputation = st.currentComputation := by
  cases fuel with
  | zero => rfl
  | succ n =>
    unfold computeValue
    split
    · rfl
    · dsimp only
      split_ifs <;> first
        | rfl
        | (rw [computeValueGo_cc]; rfl)

/-- `Computed.peek` restores the current computation on every exit path
(`withContextIsolation` teardown). -/
theorem computedPeek_cc (fuel : Nat) (st : Sys) (cid : Nat) :
    (computedPeek fuel st cid).1.currentComputation = st.currentComputation := by
  cases fuel with
  | zero => rfl
  | succ n =>
    unfold computedPeek
    split
    · rfl
    · dsimp only
      split_ifs
      · split
        · split <;> rfl
        · rfl
      · rfl

/-- `runEffect` restores the current computation on every exit path. -/
theorem runEffect_cc (fuel : Nat) (st : Sys) (eid : Nat) :
    (runEffect fuel st eid).currentComputation = st.currentComputation := by
  unfold runEffect
  split
  · rfl
  · dsimp only
    split_ifs <;> first
      | rfl
      | (simp only [updEff]
         rw [foldl_cc (fun st sid => watcherUnwatchOne st eid sid)
             (fun s x => watcherUnwatchOne_cc s eid x)])

/-- `State.set` with a value equal (`===`) to the current one is a no-op. -/
theorem stateSet_of_eq (st : Sys) (sid : Nat) (c : StateCell) (v : JSVal)
    (hs : getState st sid = some c) (hd : c.disposed = false)
    (he : jsStrictEq c.value v = true) :
    stateSet st sid v = (st, Except.ok JSVal.undef) := by
  unfold stateSet
  rw [hs]
  simp [hd, he]

/-- After the peek-only warm-up, writing any value whatsoever to the cell
leaves every computed untouched and creates no subscription: the cell's
subscriber set is empty, so `scheduleUpdate` enqueues nothing. -/
theorem c9_set_preserves (v : JSVal) :
    (stateSet c9PeekLit 0 v).1.comps = c9PeekLit.comps ∧
    subsOf (stateSet c9PeekLit 0 v).1 0 = [] := by
  cases hb : jsStrictEq (JSVal.num 10) v with
  | true =>
    rw [stateSet_of_eq c9PeekLit 0 { value := JSVal.num 10 } v rfl rfl hb]
    exact ⟨rfl, rfl⟩
  | false =>
    rw [stateSet_of_ne c9PeekLit 0 { value := JSVal.num 10 } v rfl rfl hb]
    exact ⟨rfl, rfl⟩

/-- The first `get()` on the always-throwing computed produces exactly
`c3St1`: fresh record with the partial dependency set installed, error not
cached, staleness not cleared, one derivation run counted. -/
theorem c3_first_get (msg : String) (v : Int) :
    (computedGet 50 (c3Sys msg v) 1).1 = c3St1 msg v := rfl

/-- A read with no computation in flight tracks nothing. -/
theorem trackDependency_none (st : Sys) (sid : Nat)
    (hcc : st.currentComputation = none) : trackDependency st sid = st := by
  unfold trackDependency
  rw [hcc]

/-- Unfolding step for `_computeValue` once its guards are known to pass:
it runs `computeValueGo` on the setup state. -/
theorem computeValue_step (n : Nat) (st : Sys) (cid : Nat) (c : Computed)
    (h : getComp st cid = some c) (hic : c.isComputing = false)
    (hde : ¬(st.computationDepth + 1 > st.maxComputationDepth))
    (hsc : (st.computationStack.any (fun rid =>
        match getRec { st with computationDepth := st.computationDepth + 1 } rid with
        | some r => decide (r.owner = RecOwner.comp cid)
        | none => false)) = false) :
    computeValue (n + 1) st cid =
      computeValueGo n
        (computeValueSetup { st with computationDepth := st.computationDepth + 1 } cid).1 cid
        c.callback
        (computeValueSetup { st with computationDepth := st.computationDepth + 1 } cid).2.1
        (computeValueSetup { st with computationDepth := st.computationDepth + 1 } cid).2.2.1
        (computeValueSetup { st with computationDepth := st.computationDepth + 1 } cid).2.2.2 := by
  unfold computeValue
  rw [h]
  dsimp only
  rw [hic]
  simp only [Bool.false_eq_true, if_false, if_neg hde, hsc]

/-- Unfolding step for `Computed.get` on a stale, live computed read outside
any computation: it recomputes and returns the new cached value. -/
theorem computedGet_step (n : Nat) (st : Sys) (cid : Nat) (c : Computed)
    (h : getComp st cid = some c) (hd : c.disposed = false)
    (hcc : st.currentComputation = none)
    (hst : c.isStale = true) (hic : c.isComputing = false) :
    computedGet (n + 1) st cid =
      (match computeValue n st cid with
        | (st', Except.ok _) =>
          (match getComp st' cid with
            | some c' => (st', Except.ok c'.cachedValue)
            | none => (st', Except.error (JSErr.err "no such computed")))
        | (st', Except.error e) => (st', Except.error e)) := by
  unfold computedGet
  rw [trackDependency_none st cid hcc, h]
  dsimp only
  simp only [hd, Bool.false_eq_true, if_false]
  rw [h]
  dsimp only
  simp only [hst, hic, Bool.not_false, Bool.and_self, if_true]


/-! ### Claim theorems -/

/-- C1: the claim says that after `Computed.dispose()` no dependency's
subscriber set contains any entry belonging to the computed, so a later
`set()` invokes nothing it owns.  The code falsifies this: `dispose` passes
the Computed object (`Subr.sigObj`) to `removeSubscriber`, but the entry the
dependency holds is the computation record, so the record — owned by the
computed (its `signal` field) — survives disposal, and a later `s.set(2)`
runs that record's `invalidate`, flipping the disposed computed's staleness
flag. -/
theorem C1_dispose_leaves_computation_record :
    subsOf c1Warm 0 = [Subr.record 0] ∧
    (getComp c1Disposed 1).map Computed.disposed = some true ∧
    subsOf c1Disposed 0 = [Subr.record 0] ∧
    (getRec c1Disposed 0).map CompRec.owner = some (RecOwner.comp 1) ∧
    (getComp c1Disposed 1).map Computed.isStale = some false ∧
    (getComp (stateSet c1Disposed 0 (JSVal.num 2)).1 1).map Computed.isStale = some true := by
  decide

/-- C2: the claim (and the repository's documentation) says a two-node cycle
raises a circular-dependency error on the first `get()` that closes it.  In
`signals_tc39.js` the cycle detection in `_computeValue` is unreachable from
`get()` — `get` skips recomputation while `_isComputing` is set — so the
inner `a.get()` silently returns the cached `undefined`, and the whole cycle
evaluates to `NaN` with no error raised. -/
theorem C2_cycle_returns_value_without_error :
    computedGet 50 c2Sys 0 = (c2AfterA, Except.ok JSVal.nan) ∧
    (getComp c2AfterA 0).map Computed.cachedValue = some JSVal.nan ∧
    (getComp c2AfterA 1).map Computed.cachedValue = some JSVal.nan ∧
    (getComp c2AfterA 0).map Computed.isStale = some false := by
  have hA : getComp c2Sys 0 =
      some { callback := some (Expr.add (Expr.getSig 1) (Expr.lit (JSVal.num 1))) } := by
    decide
  have hstep := computedGet_step 49 c2Sys 0 _ hA rfl rfl rfl rfl
  have hstep2 : computedGet 50 c2Sys 0 = _ := hstep
  have hvs := computeValue_step 48 c2Sys 0 _ hA rfl (by decide) (by decide)
  have hsetup : computeValueSetup
      { c2Sys with computationDepth := c2Sys.computationDepth + 1 } 0 =
      (c2MidA, [], 0, none) := by decide
  rw [hsetup] at hvs
  dsimp only at hvs
  have h2 : computeValueGo 48 c2MidA 0
      (some (Expr.add (Expr.getSig 1) (Expr.lit (JSVal.num 1)))) [] 0 none =
      (c2AfterA, Except.ok ()) := by decide
  rw [h2] at hvs
  have hvs2 : computeValue 49 c2Sys 0 = (c2AfterA, Except.ok ()) := hvs
  rw [hvs2] at hstep2
  rw [hstep2]
  exact ⟨by decide, by decide, by decide, by decide⟩

/-- C3 counterexample: the claim says a thrown derivation error is cached,
staleness is cleared, and subsequent `get()`s re-raise without re-running.
At this concrete input the failed recomputation leaves the computed stale
(`isStale = true`, not cleared), and the next `get()` runs the derivation
again (`runCount` 2 → 3). -/
theorem C3_counterexample_error_not_cached :
    (computedGet 50 throwStale 3).2 = Except.error (JSErr.err "boom") ∧
    (getComp throwFailed 3).map Computed.isStale = some true ∧
    (getComp throwFailed 3).map Computed.runCount = some 2 ∧
    (computedGet 50 throwFailed 3).2 = Except.error (JSErr.err "boom") ∧
    (getComp (computedGet 50 throwFailed 3).1 3).map Computed.runCount = some 3 := by
  decide

/-- C3 amended: when the derivation throws, the error propagates to the
caller of `get()`, nothing is cached (`cachedValue` stays `undefined`) and
staleness is not cleared; every subsequent `get()` re-runs the derivation
and re-raises the error the new run throws.  Parametric in the error
message and the dependency's value. -/
theorem C3_error_rethrown_with_rerun (msg : String) (v : Int) :
    (computedGet 50 (c3Sys msg v) 1).2 = Except.error (JSErr.err msg) ∧
    (getComp (computedGet 50 (c3Sys msg v) 1).1 1).map Computed.isStale = some true ∧
    (getComp (computedGet 50 (c3Sys msg v) 1).1 1).map Computed.cachedValue =
      some JSVal.undef ∧
    (getComp (computedGet 50 (c3Sys msg v) 1).1 1).map Computed.runCount = some 1 ∧
    (computedGet 50 (computedGet 50 (c3Sys msg v) 1).1 1).2 =
      Except.error (JSErr.err msg) ∧
    (getComp (computedGet 50 (computedGet 50 (c3Sys msg v) 1).1 1).1 1).map
      Computed.runCount = some 2 := by
  have h := c3_first_get msg v
  refine ⟨rfl, ?_, ?_, ?_, ?_, ?_⟩ <;> rw [h]
  · rfl
  · rfl
  · rfl
  · rfl
  · rfl

/-- C4 counterexample: the claim says the dependency set after a failed
recomputation equals the set before it.  Before the failed run it is
`{flag, s1, s2}`; the failed run installs the partial set `{flag, s1}`. -/
theorem C4_counterexample_partial_deps_installed :
    compDeps throwWarm 3 = [0, 1, 2] ∧
    compDeps throwStale 3 = [0, 1, 2] ∧
    compDeps throwFailed 3 = [0, 1] := by
  decide

/-- C4 amended: a failed recomputation installs the partial dependency set
read before the throw (the fresh record holds `{flag, s1}`), but no
subscriber edge is pruned: `s2` still holds the previous run's record
(owned by the computed), and the signals re-read before the throw hold both
the old and the new record — so the computed remains subscribed to every
signal of its previous dependency set. -/
theorem C4_failed_recompute_keeps_old_edges :
    compDeps throwFailed 3 = [0, 1] ∧
    (getRec throwFailed 1).map CompRec.owner = some (RecOwner.comp 3) ∧
    subsOf throwFailed 2 = [Subr.record 0] ∧
    (getRec throwFailed 0).map CompRec.owner = some (RecOwner.comp 3) ∧
    subsOf throwFailed 1 = [Subr.record 0, Subr.record 1] ∧
    subsOf throwFailed 0 = [Subr.record 0, Subr.record 1] := by
  decide

/-- C5: the claim (and the repository's documentation) says `onWatched`
fires exactly on the 0→1 subscriber transition.  The code falsifies this:
`_trackDependency` runs the watched callbacks on every tracked read.  One
`get()` of a computed that reads the cell twice fires the callback twice
while the subscriber count moves 0→1 once; a second computed's `get()`
fires it again on the 1→2 transition. -/
theorem C5_watched_callback_every_tracked_read :
    (getState c5Warm 0).map StateCell.watchedCount = some 2 ∧
    (getState c5Warm 0).map (fun s => s.subscribers.length) = some 1 ∧
    (getState c5Warm2 0).map StateCell.watchedCount = some 3 ∧
    (getState c5Warm2 0).map (fun s => s.subscribers.length) = some 2 := by
  decide

/-- C6: the claim (with the spec) says the dispose function returned by
`effect(fn)` is idempotent, the pending cleanup running at most once across
repeated calls.  The code falsifies the cleanup part: `dispose` never clears
the stored `cleanup` reference, so each call runs the user cleanup again
(`cleanupCount` 1 after the first call, 2 after the second); invalidations
arriving after disposal do re-run nothing (`runCount` stays 1). -/
theorem C6_dispose_runs_cleanup_each_call :
    (getEff c6Run 0).map (fun e => (e.runCount, e.hasCleanup)) = some (1, true) ∧
    (getEff c6Rerun 0).map (fun e => (e.runCount, e.cleanupCount)) = some (2, 1) ∧
    (getEff c6D1 0).map (fun e => (e.cleanupCount, e.isActive)) = some (1, false) ∧
    (getEff c6D2 0).map Eff.cleanupCount = some 2 ∧
    (getEff c6PostDispose 0).map (fun e => (e.runCount, e.cleanupCount)) = some (1, 1) := by
  decide

set_option maxHeartbeats 12000000 in
/-- C7: batching two writes (to values differing from the current ones)
causes no recomputation during the batch (`runCount` stays 1) and exactly
one coalesced invalidation; both final values are in place when the batch
returns, and the next `get()` performs the single recomputation, returning
the sum of the final values of both writes (repeating the count check at a
concrete instance: `runCount` becomes 2). -/
theorem C7_batch_single_recomputation (x y : Int) (h1 : x ≠ 1) (h2 : y ≠ 2) :
    (computedGet 50 c7Sys 2).1 = c7Warm ∧
    (getComp (c7AfterBatch x y) 2).map Computed.runCount = some 1 ∧
    (getComp (c7AfterBatch x y) 2).map Computed.isStale = some true ∧
    (getState (c7AfterBatch x y) 0).map StateCell.value = some (JSVal.num x) ∧
    (getState (c7AfterBatch x y) 1).map StateCell.value = some (JSVal.num y) ∧
    (computedGet 50 (c7AfterBatch x y) 2).2 = Except.ok (JSVal.num (x + y)) ∧
    (getComp (computedGet 50 (c7AfterBatch 10 20) 2).1 2).map Computed.runCount =
      some 2 := by
  have hb := c7_batch_eq x y h1 h2
  refine ⟨by decide, ?_, ?_, ?_, ?_, ?_, by decide⟩ <;> rw [hb]
  · rfl
  · rfl
  · rfl
  · rfl
  · rfl

/-- C7 witness: the theorem applied at `x = 10`, `y = 20`. -/
theorem C7_batch_single_recomputation_witness :
    (10 : Int) ≠ 1 ∧ (20 : Int) ≠ 2 ∧
    ((computedGet 50 c7Sys 2).1 = c7Warm ∧
     (getComp (c7AfterBatch 10 20) 2).map Computed.runCount = some 1 ∧
     (getComp (c7AfterBatch 10 20) 2).map Computed.isStale = some true ∧
     (getState (c7AfterBatch 10 20) 0).map StateCell.value = some (JSVal.num 10) ∧
     (getState (c7AfterBatch 10 20) 1).map StateCell.value = some (JSVal.num 20) ∧
     (computedGet 50 (c7AfterBatch 10 20) 2).2 = Except.ok (JSVal.num (10 + 20)) ∧
     (getComp (computedGet 50 (c7AfterBatch 10 20) 2).1 2).map Computed.runCount =
       some 2) :=
  ⟨by decide, by decide, C7_batch_single_recomputation 10 20 (by decide) (by decide)⟩

/-- C8: for every system state, computed and effect, the current-evaluation
frame pointer after `_computeValue`, `peek` or `runEffect` equals its value
before — on success, on a thrown derivation error, and on the detection
throws — because each saves the previous frame on entry and the teardown
restores it on every exit path. -/
theorem C8_frame_pointer_restored (fuel : Nat) (st : Sys) (cid eid : Nat) :
    (computeValue fuel st cid).1.currentComputation = st.currentComputation ∧
    (computedPeek fuel st cid).1.currentComputation = st.currentComputation ∧
    (runEffect fuel st eid).currentComputation = st.currentComputation :=
  ⟨computeValue_cc fuel st cid, computedPeek_cc fuel st cid, runEffect_cc fuel st eid⟩

/-- C9: a stale computed first evaluated through `peek()` computes with the
frame cleared: no computation record is created (`curRec` stays `none`), its
dependency set stays empty, the cell gains no subscriber, and the computed
is left fresh with the peeked value; thereafter `set()` with any value
leaves every computed untouched, so later `get()` and `peek()` keep
returning the peek-cached value without re-running the derivation. -/
theorem C9_peek_first_no_subscription :
    (computedPeek 50 c9Sys 1).2 = Except.ok (JSVal.num 20) ∧
    c9Peek = c9PeekLit ∧
    subsOf c9Peek 0 = [] ∧
    (getComp c9Peek 1).map Computed.curRec = some none ∧
    compDeps c9Peek 1 = [] ∧
    (getComp c9Peek 1).map Computed.isStale = some false ∧
    (∀ v : JSVal, (stateSet c9Peek 0 v).1.comps = c9Peek.comps) ∧
    (computedGet 50 (stateSet c9Peek 0 (JSVal.num 100)).1 1).2 =
      Except.ok (JSVal.num 20) ∧
    (getComp (computedGet 50 (stateSet c9Peek 0 (JSVal.num 100)).1 1).1 1).map
      Computed.runCount = some 1 ∧
    (computedPeek 50 (stateSet c9Peek 0 (JSVal.num 100)).1 1).2 =
      Except.ok (JSVal.num 20) := by
  refine ⟨by decide, by decide, by decide, by decide, by decide, by decide, ?_,
    by decide, by decide, by decide⟩
  intro v
  have h9 : c9Peek = c9PeekLit := by decide
  rw [h9]
  exact (c9_set_preserves v).1

/-- C10: after `State.dispose()`, `peek()` does not throw and returns
`undefined` (dispose cleared the stored value and `peek` performs no
disposed check), while `get()` and any `set()` raise the disposed-access
errors. -/
theorem C10_disposed_state_peek_undefined (v w : JSVal) :
    statePeek (c10Disposed v) 0 = JSVal.undef ∧
    (stateGet (c10Disposed v) 0).2 =
      Except.error (JSErr.err "Cannot access disposed signal") ∧
    (stateSet (c10Disposed v) 0 w).2 =
      Except.error (JSErr.err "Cannot set value on disposed signal") :=
  ⟨rfl, rfl, rfl⟩
